import Mathlib

/-!
Shallow embedding of the backend code challenge service: a file-backed record
store with a small key-query language (store.js), a spherical geometry module
(geometry-utils.js), and the area-search background-job endpoints (index.js).
All definitions are translated from the source; spec-side readings used for
refinement statements carry a spec marker in their names.
-/

/-- JavaScript values as they occur in the JSON-backed dataset and in query
objects. JS null is vNull; a missing object property is modelled as none at the
use sites. Numbers are modelled as rationals; the IEEE special value NaN is
handled separately at the one place the code can meet it (the parsed distance
parameter). -/
inductive JSValue : Type
  | vNull : JSValue
  | vBool : Bool → JSValue
  | vNum : ℚ → JSValue
  | vStr : String → JSValue
  | vArr : List JSValue → JSValue

/-- Test for the JS null value. -/
def isVNull : JSValue → Bool
  | .vNull => true
  | _ => false

/-- Rendering of a rational in element position of Array.prototype.join.
Integral values render like JS integers; the fraction form for the rest is an
acknowledged approximation of the JS decimal rendering (the service only ever
stringifies strings). -/
def numToString (q : ℚ) : String :=
  if q.den = 1 then toString q.num else toString q.num ++ "/" ++ toString q.den

mutual

/-- Element rendering of Array.prototype.join: null renders empty, nested
arrays render as their comma-joined elements. -/
def jsValueToElemString : JSValue → String
  | .vNull => ""
  | .vBool b => if b then "true" else "false"
  | .vNum q => numToString q
  | .vStr s => s
  | .vArr l => String.intercalate "," (jsListToStrings l)

/-- Element renderings of a list of values. -/
def jsListToStrings : List JSValue → List String
  | [] => []
  | v :: rest => jsValueToElemString v :: jsListToStrings rest

end

/-- JS ToNumber on strings, restricted to the forms the service can meet: the
all-blank string converts to 0, decimal integer literals convert to their
value, anything else is NaN, represented as none. -/
def strToNum? (s : String) : Option ℚ :=
  let t := s.trim
  if t = "" then some 0
  else (t.toInt?).map (fun n => (n : ℚ))

/-- JS ToNumber on a value, with none standing for NaN. An array converts
through its joined string form (ToPrimitive). -/
def toNumber? : JSValue → Option ℚ
  | .vNull => some 0
  | .vBool b => some (if b then 1 else 0)
  | .vNum q => some q
  | .vStr s => strToNum? s
  | .vArr l => strToNum? (String.intercalate "," (jsListToStrings l))

/-- JS strict equality on the values at hand. Two array values are distinct
heap references wherever this code compares them, so the array case is false. -/
def strictEq : JSValue → JSValue → Bool
  | .vNull, .vNull => true
  | .vBool a, .vBool b => a == b
  | .vNum a, .vNum b => a == b
  | .vStr a, .vStr b => a == b
  | _, _ => false

/-- Array.prototype.includes, which compares elements strictly. -/
def jsIncludes (l : List JSValue) (v : JSValue) : Bool :=
  l.any (fun w => strictEq w v)

/-- JS loose equality on the values at hand: same-type comparisons are strict,
null only equals null at this level (the undefined case lives at option level),
numbers and strings compare through ToNumber, booleans convert to numbers
first, and an array converts to its joined string form when compared with a
primitive. Two arrays are distinct references and compare unequal. -/
def looseEq : JSValue → JSValue → Bool
  | .vNull, .vNull => true
  | .vNull, _ => false
  | _, .vNull => false
  | .vBool a, .vBool b => a == b
  | .vBool a, x =>
    match toNumber? x with
    | some q => (if a then (1 : ℚ) else 0) == q
    | none => false
  | x, .vBool b =>
    match toNumber? x with
    | some q => q == (if b then (1 : ℚ) else 0)
    | none => false
  | .vNum a, .vNum b => a == b
  | .vNum a, .vStr s =>
    match strToNum? s with
    | some b => a == b
    | none => false
  | .vStr s, .vNum b =>
    match strToNum? s with
    | some a => a == b
    | none => false
  | .vStr a, .vStr b => a == b
  | .vArr _, .vArr _ => false
  | .vArr l, .vNum b =>
    match strToNum? (String.intercalate "," (jsListToStrings l)) with
    | some a => a == b
    | none => false
  | .vNum a, .vArr l =>
    match strToNum? (String.intercalate "," (jsListToStrings l)) with
    | some b => a == b
    | none => false
  | .vArr l, .vStr s => String.intercalate "," (jsListToStrings l) == s
  | .vStr s, .vArr l => s == String.intercalate "," (jsListToStrings l)

/-- A JSON record object: ordered property list. -/
abbrev JSRecord := List (String × JSValue)

/-- Property lookup on a record; none models undefined. -/
def jsLookup (obj : JSRecord) (k : String) : Option JSValue :=
  (obj.find? (fun p => p.1 == k)).map (fun p => p.2)

/-- Loose equality lifted to possibly-missing property values: undefined equals
undefined and null, and present values compare loosely. -/
def looseEqO : Option JSValue → Option JSValue → Bool
  | none, none => true
  | none, some v => isVNull v
  | some v, none => isVNull v
  | some a, some b => looseEq a b

/-- One per-field entry of a key query: the three optional operator values
(dollar-equals, dollar-includes, dollar-in). -/
structure KeyDirective where
  eqv : Option JSValue
  inc : Option JSValue
  memb : Option JSValue

/-- Models the loose non-null test applied to an operator value in
matchesKeyQuery: null and undefined both count as absent. -/
def nonNullish : Option JSValue → Option JSValue
  | some .vNull => none
  | o => o

/-- The operator cascade of the loop body of matchesKeyQuery in store.js,
applied to a non-null field value: the first present operator in the order
dollar-equals, dollar-includes, dollar-in decides; with no operator present the
field passes. The dollar-includes operator requires the field value to be an
array, the dollar-in operator requires its own value to be an array. -/
def directiveCheck (v : JSValue) (d : KeyDirective) : Bool :=
  match nonNullish d.eqv with
  | some ev => looseEq v ev
  | none =>
    match nonNullish d.inc with
    | some iv =>
      match v with
      | .vArr l => jsIncludes l iv
      | _ => false
    | none =>
      match nonNullish d.memb with
      | some mv =>
        match mv with
        | .vArr l => jsIncludes l v
        | _ => false
      | none => true

/-- The per-field body of the loop of matchesKeyQuery in store.js: reject when
the property is null or missing, otherwise run the operator cascade on the
value. -/
def fieldCheck (obj : JSRecord) (k : String) (d : KeyDirective) : Bool :=
  match jsLookup obj k with
  | none => false
  | some v => if isVNull v then false else directiveCheck v d

/-- matchesKeyQuery from store.js: conjunction of the per-field checks over the
keys of the query, the early returns of the loop folded into List.all. -/
def matchesKeyQuery (obj : JSRecord) (kq : List (String × KeyDirective)) : Bool :=
  kq.all (fun p => fieldCheck obj p.1 p.2)

/-- The where combinator of store.js: compiles a key query into a predicate on
records. -/
def whereFilter (kq : List (String × KeyDirective)) : JSRecord → Bool :=
  fun item => matchesKeyQuery item kq

/-- A single applied operator, for the spec-side reading of the query
language. -/
inductive DirectiveApp : Type
  | eqD : JSValue → DirectiveApp
  | incD : JSValue → DirectiveApp
  | memD : JSValue → DirectiveApp

/-- Spec-side reading: the one directive applied to a field, chosen in the
priority order equals, includes, memberOf. -/
def specChosenDirective (d : KeyDirective) : Option DirectiveApp :=
  match nonNullish d.eqv with
  | some v => some (.eqD v)
  | none =>
    match nonNullish d.inc with
    | some v => some (.incD v)
    | none => (nonNullish d.memb).map .memD

/-- Spec-side reading of one directive applied to a non-null field value:
equals compares loosely, includes requires an array field containing the value,
memberOf requires the operator value to be an array containing the field. -/
def specDirectiveHolds (v : JSValue) : DirectiveApp → Bool
  | .eqD w => looseEq v w
  | .incD w =>
    match v with
    | .vArr l => jsIncludes l w
    | _ => false
  | .memD w =>
    match w with
    | .vArr l => jsIncludes l v
    | _ => false

/-- Spec-side reading of one queried field: the record value for the field is
non-null and non-missing, and the single chosen directive (when any directive
is present) succeeds on it. -/
def specFieldSatisfied (obj : JSRecord) (k : String) (d : KeyDirective) : Prop :=
  ∃ v, jsLookup obj k = some v ∧ v ≠ .vNull ∧
    (match specChosenDirective d with
     | some app => specDirectiveHolds v app = true
     | none => True)

/-- The chain stage of FileBasedStore.filter: pass the parsed item through when
the matcher accepts it, drop it (null) otherwise. -/
def pipelineStage {α : Type} (matcher : α → Bool) (item : α) : Option α :=
  if matcher item then some item else none

/-- FileBasedStore.filter: the backing file parses to a list of records or
fails; each parsed item runs through the chain stage and the accepted items are
pushed onto the result in stream order; a read or parse error rejects the
promise, modelled as the error outcome. The key-value wrapper of streamArray is
elided since the code only ever touches the value. -/
def storeFilter {α : Type} (matcher : α → Bool) (file : Except Unit (List α)) :
    Except Unit (List α) :=
  file.map (fun items =>
    items.foldl (fun acc item =>
      match pipelineStage matcher item with
      | some it => acc ++ [it]
      | none => acc) [])

/-- Latitude and longitude in degrees. -/
structure Coord where
  lat : ℝ
  lon : ℝ

/-- Sphere radius in meters, from geometry-utils.js. -/
def EARTH_RADIUS_APPROX : ℝ := 6371000

noncomputable section

/-- Math.atan2 over the real numbers. -/
def atan2 (y x : ℝ) : ℝ :=
  if 0 < x then Real.arctan (y / x)
  else if x < 0 then
    (if 0 ≤ y then Real.arctan (y / x) + Real.pi else Real.arctan (y / x) - Real.pi)
  else
    (if 0 < y then Real.pi / 2 else if y < 0 then -(Real.pi / 2) else 0)

/-- distanceBetweenCoord from geometry-utils.js, over the real numbers. -/
def distanceBetweenCoord (p1 p2 : Coord) : ℝ :=
  let lat1Rad := p1.lat * Real.pi / 180
  let lat2Rad := p2.lat * Real.pi / 180
  let deltaLat := (p2.lat - p1.lat) * Real.pi / 180
  let deltaLon := (p2.lon - p1.lon) * Real.pi / 180
  let a := Real.sin (deltaLat / 2) * Real.sin (deltaLat / 2) +
    Real.cos lat1Rad * Real.cos lat2Rad *
    Real.sin (deltaLon / 2) * Real.sin (deltaLon / 2)
  let c := 2 * atan2 (Real.sqrt a) (Real.sqrt (1 - a))
  EARTH_RADIUS_APPROX * c

/-- The haversine intermediate of distanceBetweenCoord, written without the
local bindings. -/
def haversineTerm (p1 p2 : Coord) : ℝ :=
  Real.sin ((p2.lat - p1.lat) * Real.pi / 180 / 2) *
    Real.sin ((p2.lat - p1.lat) * Real.pi / 180 / 2) +
  Real.cos (p1.lat * Real.pi / 180) * Real.cos (p2.lat * Real.pi / 180) *
    Real.sin ((p2.lon - p1.lon) * Real.pi / 180 / 2) *
    Real.sin ((p2.lon - p1.lon) * Real.pi / 180 / 2)

end

/-- One entry of the areaProcessingJobs map: result list and completion flag. -/
structure Job where
  result : List JSRecord
  isDone : Bool

/-- The in-memory job registry, modelled as the underlying entry list of the JS
Map in insertion order. -/
abbrev JobMap := List (String × Job)

/-- Map.set: replace the value under an existing key, or append a new entry. -/
def mapSet (m : JobMap) (k : String) (v : Job) : JobMap :=
  match m with
  | [] => [(k, v)]
  | p :: rest => if p.1 == k then (k, v) :: rest else p :: mapSet rest k v

/-- Map.get, with none for a missing key. -/
def mapGet (m : JobMap) (k : String) : Option Job :=
  match m with
  | [] => none
  | p :: rest => if p.1 == k then some p.2 else mapGet rest k

/-- Map.delete. -/
def mapDelete (m : JobMap) (k : String) : JobMap :=
  match m with
  | [] => []
  | p :: rest => if p.1 == k then rest else p :: mapDelete rest k

/-- Map.has. -/
def mapHas (m : JobMap) (k : String) : Bool :=
  (mapGet m k).isSome

/-- Map.size. -/
def mapSize (m : JobMap) : Nat := m.length

/-- The completion step of scheduleAreaProcessingJob: store the scan result
under the job id with the done flag set. The code calls Map.set
unconditionally, without checking that the entry still exists. -/
def complete (jobs : JobMap) (id : String) (results : List JSRecord) : JobMap :=
  mapSet jobs id ⟨results, true⟩

/-- The hardcoded id given to a job created while the job map is empty. -/
def hardcodedAreaJobID : String := "2152f96f-50c7-4d76-9e18-f7033bd14428"

/-- The test distance == NaN of the area handler. Comparing any JS value with
NaN by loose equality is false, so the test never fires, whatever the parsed
distance was; the translation is the constant false. -/
def jsEqNaN (_d : Option Int) : Bool := false

/-- Job-id choice of the area handler: the hardcoded id when the map is empty,
the freshly generated random id otherwise. The random id is passed in as a
parameter. -/
def issueJobID (jobs : JobMap) (rid : String) : String :=
  if mapSize jobs == 0 then hardcodedAreaJobID else rid

/-- Outcome of the synchronous part of the area handler: the 400 response, or
the 202 response carrying the results URL for the issued job id together with
the updated registry. -/
inductive AreaSyncResult : Type
  | badRequest : AreaSyncResult
  | accepted : String → JobMap → AreaSyncResult

/-- Synchronous part of the area handler: parameter validation (with the
vacuous NaN test), job-id choice, registration of the pending job, and the 202
response. The parsed distance is an Option Int, none standing for the NaN that
parseInt returns on a missing or unparseable parameter. -/
def areaSync (jobs : JobMap) (fromID : Option String) (distance : Option Int)
    (rid : String) : AreaSyncResult :=
  if fromID.isNone || jsEqNaN distance then .badRequest
  else
    let jobID := issueJobID jobs rid
    .accepted jobID (mapSet jobs jobID ⟨[], false⟩)

/-- Comparison of a computed distance with the requested threshold: false when
the threshold is NaN. -/
def jsLt (x : Int) (t : Option Int) : Bool :=
  match t with
  | some v => decide (x < v)
  | none => false

/-- The parsed distance multiplied by 1000, as the area handler passes it on to
scheduleAreaProcessingJob; NaN propagates. -/
def nanMul1000 (d : Option Int) : Option Int :=
  d.map (fun n => n * 1000)

/-- The custom matcher of scheduleAreaProcessingJob: keep an item when its guid
differs (loose inequality) from the origin guid and its distance to the origin
is strictly below the threshold. The distance function is a parameter, as the
handler imports it from the geometry module; its values are modelled over the
integers, which none of the stated properties is sensitive to. -/
def areaMatcher (dFun : JSRecord → JSRecord → Int) (fromCity : JSRecord)
    (threshold : Option Int) (item : JSRecord) : Bool :=
  !(looseEqO (jsLookup item "guid") (jsLookup fromCity "guid")) &&
    jsLt (dFun fromCity item) threshold

/-- scheduleAreaProcessingJob without its five-minute expiry timer, which is an
independent later mapDelete event: scan the store with the custom matcher,
store the result as done on success, delete the job entry on a store error. -/
def scheduleAreaProcessingJob (dFun : JSRecord → JSRecord → Int)
    (file : Except Unit (List JSRecord)) (fromCity : JSRecord)
    (threshold : Option Int) (jobID : String) (jobs : JobMap) : JobMap :=
  match storeFilter (areaMatcher dFun fromCity threshold) file with
  | .ok result => complete jobs jobID result
  | .error _ => mapDelete jobs jobID

/-- The strict comparison city.guid === fromID used by the find calls of the
handlers: true exactly for a string guid equal to the identifier. -/
def strictEqStr (v : Option JSValue) (s : String) : Bool :=
  match v with
  | some (.vStr g) => g == s
  | _ => false

/-- Asynchronous part of the area handler, run after the 202 response was
already sent: look the origin up by guid through the store, silently do nothing
when no record matches, start the processing job when one does, and delete the
job entry when the lookup itself fails with a store error. -/
def areaAsync (dFun : JSRecord → JSRecord → Int) (file : Except Unit (List JSRecord))
    (fromID : String) (distance : Option Int) (jobID : String) (jobs : JobMap) :
    JobMap :=
  match storeFilter (whereFilter [("guid", ⟨some (.vStr fromID), none, none⟩)]) file with
  | .error _ => mapDelete jobs jobID
  | .ok result =>
    match result.find? (fun city => strictEqStr (jsLookup city "guid") fromID) with
    | none => jobs
    | some fromCity =>
      scheduleAreaProcessingJob dFun file fromCity (nanMul1000 distance) jobID jobs

/-- The origin record the asynchronous part finds in a parsed file. -/
def originFind (recs : List JSRecord) (fromID : String) : Option JSRecord :=
  (recs.filter (whereFilter [("guid", ⟨some (.vStr fromID), none, none⟩)])).find?
    (fun city => strictEqStr (jsLookup city "guid") fromID)

/-- Response of the area-result endpoint. -/
inductive AreaResultResponse : Type
  | notFound : AreaResultResponse
  | pending : AreaResultResponse
  | done : List JSRecord → AreaResultResponse

/-- The area-result handler: 404 for an id missing from the registry, 202 while
the job is pending, the city list once it is done. -/
def areaResultHandler (jobs : JobMap) (id : String) : AreaResultResponse :=
  match mapGet jobs id with
  | none => .notFound
  | some j => if j.isDone then .done j.result else .pending

/-- A two-record test dataset used to evaluate the handlers at concrete
inputs. -/
def cityA : JSRecord :=
  [("guid", .vStr "a"), ("latitude", .vNum 0), ("longitude", .vNum 0)]

/-- Second record of the test dataset. -/
def cityB : JSRecord :=
  [("guid", .vStr "b"), ("latitude", .vNum 1), ("longitude", .vNum 1)]

/-- An injected metric for the test dataset: 500 meters from anywhere to cityB,
0 otherwise. -/
def demoDist : JSRecord → JSRecord → Int :=
  fun _ item => if strictEqStr (jsLookup item "guid") "b" then 500 else 0

/-- A record carrying two tags, used to evaluate the tag filter at a concrete
input. -/
def cityTagged : JSRecord :=
  [("guid", .vStr "c"), ("tags", .vArr [.vStr "x", .vStr "y"])]

/-- The push-accumulator fold of the filter pipeline computes List.filter. -/
theorem storeFilter_foldl {α : Type} (matcher : α → Bool) :
    ∀ (l acc : List α),
      l.foldl (fun acc item =>
        match pipelineStage matcher item with
        | some it => acc ++ [it]
        | none => acc) acc = acc ++ l.filter matcher := by
  intro l
  induction l with
  | nil => intro acc; simp
  | cons x xs ih =>
    intro acc
    rw [List.foldl_cons]
    by_cases h : matcher x
    · have h1 : pipelineStage matcher x = some x := by simp [pipelineStage, h]
      simp only [h1]
      rw [ih]
      simp [List.filter_cons, h]
    · have h1 : pipelineStage matcher x = none := by simp [pipelineStage, h]
      simp only [h1]
      rw [ih]
      simp [List.filter_cons, h]

/-- On a successfully parsed file the store filter returns exactly the matching
records in file order. -/
theorem storeFilter_ok {α : Type} (matcher : α → Bool) (l : List α) :
    storeFilter matcher (Except.ok l) = Except.ok (l.filter matcher) := by
  simp [storeFilter, Except.map, storeFilter_foldl]

/-- A read or parse error propagates through the store filter. -/
theorem storeFilter_error {α : Type} (matcher : α → Bool) (e : Unit) :
    storeFilter matcher (Except.error e) = Except.error e := rfl

/-- Map.get after Map.set of the same key yields the stored value. -/
theorem mapGet_mapSet_self (m : JobMap) (k : String) (v : Job) :
    mapGet (mapSet m k v) k = some v := by
  induction m with
  | nil => simp [mapSet, mapGet]
  | cons p rest ih =>
    by_cases h : p.1 = k
    · simp [mapSet, mapGet, h]
    · simp [mapSet, mapGet, h, ih]

/-- The asynchronous area step on a parsed file, phrased through the origin
find. -/
theorem areaAsync_ok (dFun : JSRecord → JSRecord → Int) (recs : List JSRecord)
    (fromID : String) (d : Option Int) (jobID : String) (jobs : JobMap) :
    areaAsync dFun (Except.ok recs) fromID d jobID jobs =
      match originFind recs fromID with
      | none => jobs
      | some fromCity =>
        scheduleAreaProcessingJob dFun (Except.ok recs) fromCity (nanMul1000 d)
          jobID jobs := by
  unfold areaAsync originFind
  rw [storeFilter_ok]

/-- The processing job on a parsed file completes with the filtered records. -/
theorem scheduleAreaProcessingJob_ok (dFun : JSRecord → JSRecord → Int)
    (recs : List JSRecord) (fromCity : JSRecord) (threshold : Option Int)
    (jobID : String) (jobs : JobMap) :
    scheduleAreaProcessingJob dFun (Except.ok recs) fromCity threshold jobID jobs =
      complete jobs jobID (recs.filter (areaMatcher dFun fromCity threshold)) := by
  unfold scheduleAreaProcessingJob
  rw [storeFilter_ok]

/-- distanceBetweenCoord, written through the haversine intermediate. -/
theorem distanceBetweenCoord_eq (p q : Coord) :
    distanceBetweenCoord p q =
      EARTH_RADIUS_APPROX *
        (2 * atan2 (Real.sqrt (haversineTerm p q))
          (Real.sqrt (1 - haversineTerm p q))) := rfl

/-- The haversine intermediate is symmetric in its two points. -/
theorem haversineTerm_symm (p q : Coord) : haversineTerm p q = haversineTerm q p := by
  unfold haversineTerm
  have h1 : (p.lat - q.lat) * Real.pi / 180 / 2 =
      -((q.lat - p.lat) * Real.pi / 180 / 2) := by ring
  have h2 : (p.lon - q.lon) * Real.pi / 180 / 2 =
      -((q.lon - p.lon) * Real.pi / 180 / 2) := by ring
  rw [h1, h2, Real.sin_neg, Real.sin_neg]
  ring

/-- The haversine intermediate vanishes on a pair of equal points. -/
theorem haversineTerm_self (p : Coord) : haversineTerm p p = 0 := by
  unfold haversineTerm
  simp

/-- Math.atan2 at the point (0, 1). -/
theorem atan2_zero_one : atan2 0 1 = 0 := by
  unfold atan2
  rw [if_pos one_pos]
  simp

/-- Claim C9: the great-circle distance function of the geometry module is
symmetric, and the distance from any point to itself is 0. -/
theorem distanceBetweenCoord_symm_self :
    (∀ p q : Coord, distanceBetweenCoord p q = distanceBetweenCoord q p) ∧
    (∀ p : Coord, distanceBetweenCoord p p = 0) := by
  constructor
  · intro p q
    rw [distanceBetweenCoord_eq, distanceBetweenCoord_eq, haversineTerm_symm]
  · intro p
    rw [distanceBetweenCoord_eq, haversineTerm_self]
    simp [atan2_zero_one]

/-- isVNull decides equality with the null value. -/
theorem isVNull_iff (v : JSValue) : isVNull v = true ↔ v = .vNull := by
  cases v <;> simp [isVNull]

/-- The operator cascade agrees with the spec-side single chosen directive. -/
theorem directiveCheck_iff_holds (v : JSValue) (d : KeyDirective) :
    directiveCheck v d = true ↔
      (match specChosenDirective d with
       | some app => specDirectiveHolds v app = true
       | none => True) := by
  unfold directiveCheck specChosenDirective
  cases he : nonNullish d.eqv with
  | some ev => simp [specDirectiveHolds]
  | none =>
    cases hi : nonNullish d.inc with
    | some iv => simp [specDirectiveHolds]
    | none =>
      cases hm : nonNullish d.memb with
      | some mv => simp [specDirectiveHolds]
      | none => simp

/-- The per-field check of the code agrees with the spec-side reading of one
queried field. -/
theorem fieldCheck_iff (obj : JSRecord) (k : String) (d : KeyDirective) :
    fieldCheck obj k d = true ↔ specFieldSatisfied obj k d := by
  unfold fieldCheck specFieldSatisfied
  cases hv : jsLookup obj k with
  | none => simp
  | some v =>
    dsimp only
    by_cases hn : isVNull v
    · rw [if_pos hn]
      rw [(isVNull_iff v).1 hn]
      simp
    · rw [if_neg hn]
      have hne : v ≠ .vNull := fun h => hn ((isVNull_iff v).2 h)
      simp only [Option.some.injEq]
      constructor
      · intro h
        exact ⟨v, rfl, hne, (directiveCheck_iff_holds v d).1 h⟩
      · rintro ⟨v2, hv2, _hne2, hd⟩
        subst hv2
        exact (directiveCheck_iff_holds v d).2 hd

/-- Claim C6: a record passes the compiled key-query predicate exactly when,
for every queried field, the record value for that field is present and
non-null and the single directive chosen in the priority order equals,
includes, memberOf succeeds on it. -/
theorem matchesKeyQuery_characterization (obj : JSRecord)
    (kq : List (String × KeyDirective)) :
    matchesKeyQuery obj kq = true ↔ ∀ p ∈ kq, specFieldSatisfied obj p.1 p.2 := by
  unfold matchesKeyQuery
  rw [List.all_eq_true]
  exact ⟨fun h p hp => (fieldCheck_iff obj p.1 p.2).1 (h p hp),
    fun h p hp => (fieldCheck_iff obj p.1 p.2).2 (h p hp)⟩

/-- Claim C7: on a file that parses to a record list, filter resolves with
exactly the records satisfying the predicate — the canonical ordered
subsequence List.filter, whose membership is predicate-and-membership and which
is a sublist of the file, hence in file order; on a read or parse error the
promise rejects with that error. -/
theorem storeFilter_correct {α : Type} (matcher : α → Bool) :
    (∀ l : List α, storeFilter matcher (Except.ok l) = Except.ok (l.filter matcher)) ∧
    (∀ (l : List α) (r : α), r ∈ l.filter matcher ↔ r ∈ l ∧ matcher r = true) ∧
    (∀ l : List α, (l.filter matcher).Sublist l) ∧
    (∀ e : Unit, storeFilter matcher (Except.error e) = Except.error e) :=
  ⟨fun l => storeFilter_ok matcher l,
   fun _l _r => List.mem_filter,
   fun l => List.filter_sublist l,
   fun e => storeFilter_error matcher e⟩

/-- Array.includes on a list of tag strings is list membership of the tag. -/
theorem jsIncludes_map_vStr (tags : List String) (t : String) :
    jsIncludes (tags.map .vStr) (.vStr t) = true ↔ t ∈ tags := by
  induction tags with
  | nil => simp [jsIncludes]
  | cons s rest ih =>
    simp only [jsIncludes, List.map_cons, List.any_cons] at ih ⊢
    simp only [strictEq, Bool.or_eq_true, beq_iff_eq] at ih ⊢
    rw [ih, List.mem_cons]
    constructor
    · rintro (h | h)
      · exact Or.inl h.symm
      · exact Or.inr h
    · rintro (h | h)
      · exact Or.inl h.symm
      · exact Or.inr h

/-- The compiled tags-includes predicate holds on a record with string tags
exactly when the tag is among them. -/
theorem whereFilter_tags_iff (R : JSRecord) (t : String) (tags : List String)
    (htags : jsLookup R "tags" = some (.vArr (tags.map .vStr))) :
    whereFilter [("tags", ⟨none, some (.vStr t), none⟩)] R = true ↔ t ∈ tags := by
  unfold whereFilter matchesKeyQuery
  simp only [List.all_cons, List.all_nil, Bool.and_true]
  unfold fieldCheck
  rw [htags]
  dsimp only
  rw [if_neg (by simp [isVNull])]
  unfold directiveCheck nonNullish
  dsimp only
  exact jsIncludes_map_vStr tags t

/-- Claim C8: filtering the dataset with the predicate tags-includes-t returns
a record exactly when t is an element of its tags. -/
theorem tags_includes_iff (file : List JSRecord) (R : JSRecord) (t : String)
    (tags : List String)
    (htags : jsLookup R "tags" = some (.vArr (tags.map .vStr))) :
    storeFilter (whereFilter [("tags", ⟨none, some (.vStr t), none⟩)]) (Except.ok file)
      = Except.ok (file.filter (whereFilter [("tags", ⟨none, some (.vStr t), none⟩)])) ∧
    (R ∈ file.filter (whereFilter [("tags", ⟨none, some (.vStr t), none⟩)]) ↔
      R ∈ file ∧ t ∈ tags) := by
  refine ⟨storeFilter_ok _ _, ?_⟩
  rw [List.mem_filter, whereFilter_tags_iff R t tags htags]

/-- Witness for claim C8 at a concrete dataset and tag. -/
theorem tags_includes_iff_witness :
    storeFilter (whereFilter [("tags", ⟨none, some (.vStr "x"), none⟩)])
        (Except.ok [cityTagged])
      = Except.ok ([cityTagged].filter
          (whereFilter [("tags", ⟨none, some (.vStr "x"), none⟩)])) ∧
    (cityTagged ∈ [cityTagged].filter
        (whereFilter [("tags", ⟨none, some (.vStr "x"), none⟩)]) ↔
      cityTagged ∈ [cityTagged] ∧ "x" ∈ ["x", "y"]) :=
  tags_includes_iff [cityTagged] cityTagged "x" ["x", "y"] rfl

/-- Claim C1 at a failing input: the injected metric puts cityB 500 meters from
cityA, the request asks for radius 1 meter, yet the completed job for origin
cityA contains cityB, because the handler hands the scan the requested radius
multiplied by 1000. -/
theorem area_radius_scaling_bug :
    demoDist cityA cityB = 500 ∧
    ¬(demoDist cityA cityB < 1) ∧
    mapGet (areaAsync demoDist (Except.ok [cityA, cityB]) "a" (some 1) "jid"
        (mapSet [] "jid" ⟨[], false⟩)) "jid" = some ⟨[cityB], true⟩ := by
  refine ⟨rfl, ?_, ?_⟩
  · rw [show demoDist cityA cityB = (500 : Int) from rfl]
    norm_num
  · rw [areaAsync_ok, show originFind [cityA, cityB] "a" = some cityA from rfl]
    dsimp only
    rw [scheduleAreaProcessingJob_ok,
      show [cityA, cityB].filter (areaMatcher demoDist cityA (nanMul1000 (some 1)))
        = [cityB] from rfl]
    rfl

/-- Claim C2 counterexample: a lookup that succeeds but finds no origin record
does not delete the job entry; the handle still resolves, as pending, not as
404 not-found. -/
theorem area_origin_missing_not_deleted_cex :
    areaResultHandler (areaAsync demoDist (Except.ok [cityB]) "zzz" (some 5) "jid"
        [("jid", ⟨[], false⟩)]) "jid" = AreaResultResponse.pending ∧
    areaResultHandler (areaAsync demoDist (Except.ok [cityB]) "zzz" (some 5) "jid"
        [("jid", ⟨[], false⟩)]) "jid" ≠ AreaResultResponse.notFound := by
  refine ⟨rfl, ?_⟩
  intro h
  rw [show areaResultHandler (areaAsync demoDist (Except.ok [cityB]) "zzz" (some 5)
      "jid" [("jid", ⟨[], false⟩)]) "jid" = AreaResultResponse.pending from rfl] at h
  exact AreaResultResponse.noConfusion h

/-- Claim C2 (amended): when the origin lookup succeeds but finds no record the
asynchronous step leaves the registry untouched, so a pending job entry stays
pending and the area-result endpoint keeps answering 202; the entry is deleted
only when the lookup itself fails with a store error. -/
theorem area_origin_missing_leaves_pending (dFun : JSRecord → JSRecord → Int)
    (recs : List JSRecord) (fromID : String) (d : Option Int) (jobID : String)
    (jobs : JobMap)
    (h : originFind recs fromID = none)
    (hjob : mapGet jobs jobID = some ⟨[], false⟩) :
    areaAsync dFun (Except.ok recs) fromID d jobID jobs = jobs ∧
    areaResultHandler (areaAsync dFun (Except.ok recs) fromID d jobID jobs) jobID
      = AreaResultResponse.pending ∧
    areaAsync dFun (Except.error ()) fromID d jobID jobs = mapDelete jobs jobID := by
  have hA : areaAsync dFun (Except.ok recs) fromID d jobID jobs = jobs := by
    rw [areaAsync_ok, h]
  refine ⟨hA, ?_, rfl⟩
  rw [hA]
  unfold areaResultHandler
  rw [hjob]
  rfl

/-- Witness for the amended claim C2 at a concrete dataset and job map. -/
theorem area_origin_missing_leaves_pending_witness :
    areaAsync demoDist (Except.ok [cityB]) "zzz" (some 5) "jid"
        [("jid", ⟨[], false⟩)] = [("jid", ⟨[], false⟩)] ∧
    areaResultHandler (areaAsync demoDist (Except.ok [cityB]) "zzz" (some 5) "jid"
        [("jid", ⟨[], false⟩)]) "jid" = AreaResultResponse.pending ∧
    areaAsync demoDist (Except.error ()) "zzz" (some 5) "jid"
        [("jid", ⟨[], false⟩)] = mapDelete [("jid", ⟨[], false⟩)] "jid" :=
  area_origin_missing_leaves_pending demoDist [cityB] "zzz" (some 5) "jid"
    [("jid", ⟨[], false⟩)] rfl rfl

/-- Claim C3 at a failing input: a request with from missing is rejected with
400 and creates no job, but a request with from present and distance missing or
unparseable (parseInt yields NaN) slips through the vacuous NaN test: a job is
created and 202 is returned instead of the claimed 400. -/
theorem area_missing_distance_bug :
    areaSync [] none (some 5) "r" = AreaSyncResult.badRequest ∧
    areaSync [] none none "r" = AreaSyncResult.badRequest ∧
    areaSync [] (some "a") none "r"
      = AreaSyncResult.accepted hardcodedAreaJobID
          [(hardcodedAreaJobID, ⟨[], false⟩)] ∧
    mapHas [(hardcodedAreaJobID, ⟨[], false⟩)] hardcodedAreaJobID = true :=
  ⟨rfl, rfl, rfl, rfl⟩

/-- Claim C4 counterexample: completing after deletion is not a no-op; at a
concrete registry the deleted entry reappears, done, under its id. -/
theorem complete_after_delete_cex :
    mapGet (complete (mapDelete (mapSet [] "jid" ⟨[], false⟩) "jid") "jid" [cityA])
        "jid" = some ⟨[cityA], true⟩ ∧
    mapGet (complete (mapDelete (mapSet [] "jid" ⟨[], false⟩) "jid") "jid" [cityA])
        "jid" ≠ none := by
  refine ⟨rfl, ?_⟩
  intro h
  rw [show mapGet (complete (mapDelete (mapSet [] "jid" ⟨[], false⟩) "jid") "jid"
      [cityA]) "jid" = some ⟨[cityA], true⟩ from rfl] at h
  exact Option.noConfusion h

/-- Claim C4 (amended): completing a job whose entry was already deleted
re-inserts the entry: afterwards the registry maps the id to the completed
job. -/
theorem complete_after_delete_reinserts (jobs : JobMap) (id : String)
    (res : List JSRecord) :
    mapGet (complete (mapDelete jobs id) id res) id = some ⟨res, true⟩ :=
  mapGet_mapSet_self (mapDelete jobs id) id ⟨res, true⟩

/-- Claim C5 counterexample: the first request gets the fixed hardcoded id;
after that job is deleted the registry is empty again, and a later, not-first
request is also assigned the fixed id although a distinct random id was
drawn. -/
theorem fixed_jobID_reissued_cex :
    areaSync [] (some "a") (some 5) "r1"
      = AreaSyncResult.accepted hardcodedAreaJobID
          [(hardcodedAreaJobID, ⟨[], false⟩)] ∧
    mapDelete [(hardcodedAreaJobID, ⟨[], false⟩)] hardcodedAreaJobID = [] ∧
    areaSync [] (some "b") (some 7) "r2"
      = AreaSyncResult.accepted hardcodedAreaJobID
          [(hardcodedAreaJobID, ⟨[], false⟩)] ∧
    ("r2" : String) ≠ hardcodedAreaJobID :=
  ⟨rfl, rfl, rfl, by decide⟩

/-- Claim C5 (amended): a job is assigned the fixed hardcoded id exactly when
the registry is empty at issuance and the supplied random id otherwise; so the
first job overall gets the fixed id and any job issued while another exists
gets the random id, but the fixed id is reissued whenever the registry empties
again. -/
theorem area_jobID_assignment (jobs : JobMap) (fromID : String) (d : Option Int)
    (rid : String) :
    (mapSize jobs = 0 →
      areaSync jobs (some fromID) d rid
        = AreaSyncResult.accepted hardcodedAreaJobID
            (mapSet jobs hardcodedAreaJobID ⟨[], false⟩)) ∧
    (mapSize jobs ≠ 0 →
      areaSync jobs (some fromID) d rid
        = AreaSyncResult.accepted rid (mapSet jobs rid ⟨[], false⟩)) := by
  constructor
  · intro h
    unfold areaSync jsEqNaN issueJobID
    simp [h]
  · intro h
    unfold areaSync jsEqNaN issueJobID
    simp [h]

/-- Witness for the amended claim C5 on an empty and on a nonempty registry. -/
theorem area_jobID_assignment_witness :
    areaSync [] (some "a") (some 5) "r"
      = AreaSyncResult.accepted hardcodedAreaJobID
          (mapSet [] hardcodedAreaJobID ⟨[], false⟩) ∧
    areaSync [("x", ⟨[], false⟩)] (some "a") (some 5) "r"
      = AreaSyncResult.accepted "r" (mapSet [("x", ⟨[], false⟩)] "r" ⟨[], false⟩) :=
  ⟨(area_jobID_assignment [] "a" (some 5) "r").1 rfl,
   (area_jobID_assignment [("x", ⟨[], false⟩)] "a" (some 5) "r").2 (by simp [mapSize])⟩

/-- Claim C10: when the distance parameter parses to NaN and the origin exists,
the request is still accepted with a results URL for the issued id, and the
processing job completes done with an empty result, since every distance
comparison against NaN is false. -/
theorem area_nan_distance_completes_empty (dFun : JSRecord → JSRecord → Int)
    (recs : List JSRecord) (fromID rid jobID : String) (jobs jobs2 : JobMap)
    (c : JSRecord)
    (h : originFind recs fromID = some c) :
    areaSync jobs (some fromID) none rid
      = AreaSyncResult.accepted (issueJobID jobs rid)
          (mapSet jobs (issueJobID jobs rid) ⟨[], false⟩) ∧
    mapGet (areaAsync dFun (Except.ok recs) fromID none jobID jobs2) jobID
      = some ⟨[], true⟩ := by
  refine ⟨rfl, ?_⟩
  rw [areaAsync_ok, h]
  dsimp only
  rw [scheduleAreaProcessingJob_ok]
  have hfil : recs.filter (areaMatcher dFun c (nanMul1000 none)) = [] := by
    simp [areaMatcher, nanMul1000, jsLt]
  rw [hfil]
  exact mapGet_mapSet_self jobs2 jobID ⟨[], true⟩

/-- Witness for claim C10 at the concrete test dataset. -/
theorem area_nan_distance_completes_empty_witness :
    areaSync [] (some "a") none "r"
      = AreaSyncResult.accepted (issueJobID [] "r")
          (mapSet [] (issueJobID [] "r") ⟨[], false⟩) ∧
    mapGet (areaAsync demoDist (Except.ok [cityA, cityB]) "a" none "jid"
        [("jid", ⟨[], false⟩)]) "jid" = some ⟨[], true⟩ :=
  area_nan_distance_completes_empty demoDist [cityA, cityB] "a" "r" "jid"
    [] [("jid", ⟨[], false⟩)] cityA rfl
